import Mathlib

/-!
Verification of `marshmallow_oneofschema/one_of_schema.py` (class `OneOfSchema`).

The development shallowly embeds the dispatch/multiplexing logic of
`OneOfSchema`: type-tag resolution (`get_obj_type`), handler lookup in
`type_schemas`, tag injection on dump, tag stripping on load, per-index
error aggregation for `many=True` calls, `validate`, and the
construction-time `only`/`exclude` projection narrowing.

Modelling conventions:
* Python values are the inductive `PyVal` (`None`, `str`, `int`, `bool`,
  `list`, `tuple`, `dict`); dict keys are `Key` (strings or ints — int keys
  occur in the index-keyed aggregate error messages).
* A sub-schema ("handler") is an opaque capability: a pure `dump` from a
  domain object to an optional record and a pure `load` from a record plus a
  partial/unknown option pair, each returning a value or a raised
  `ValidationErr` (marshmallow's `ValidationError` with its
  `normalized_messages()` and `valid_data` payloads).
* On the dump side `raise ValidationError(...)` is `Except.error` and a
  normal return is `Except.ok`.  The load side has a second abnormal exit:
  `"... %s" % operand` raises an uncaught `TypeError` when the operand is a
  tuple of length other than one (and unpacks a length-1 tuple), so
  load-side calls return `Except PyErr`, with a raised `ValidationError` as
  `.error (.validation e)` and that crash as `.error .typeError`.
* String and container reprs inside error messages follow Python `repr`,
  delimiter choice and ASCII escaping included; codepoints at 128 and above
  render as themselves, where Python would escape the unprintable ones
  among them.
* Python `set` objects are modelled as lists, faithful up to membership.
* The registry `type_schemas` is keyed by strings, as in the source's
  examples; a non-string (but hashable) tag finds no entry, exactly as a
  lookup in a string-keyed Python dict.
* Mutation of the input dict in `_load` is modelled explicitly in
  `OneOfSchema.loadRef`, where dict objects live on a heap of cells and
  `data = dict(data)` allocates a fresh cell; the pure `_load` is the
  functional view of the same code.
-/

/-- Python dict key: a string or an int (ints arise as the batch indices
keying aggregate error messages). -/
inductive Key where
  | s (str : String)
  | i (n : Nat)
deriving DecidableEq, Repr

mutual
/-- A Python value, as far as `OneOfSchema` inspects values. -/
inductive PyVal where
  | pnone
  | str (s : String)
  | int (n : Int)
  | bool (b : Bool)
  | list (xs : PyList)
  | tuple (xs : PyList)
  | dict (entries : PyDict)
deriving DecidableEq, Repr
/-- A Python list of values. -/
inductive PyList where
  | nil
  | cons (hd : PyVal) (tl : PyList)
deriving DecidableEq, Repr
/-- A Python dict: key/value entries in insertion order, keys unique. -/
inductive PyDict where
  | nil
  | cons (k : Key) (v : PyVal) (tl : PyDict)
deriving DecidableEq, Repr
end

/-- Python truthiness (`if not x`) for the values above. -/
def PyVal.truthy : PyVal → Bool
  | .pnone => false
  | .str s => decide (s ≠ "")
  | .int n => decide (n ≠ 0)
  | .bool b => b
  | .list xs => decide (xs ≠ .nil)
  | .tuple xs => decide (xs ≠ .nil)
  | .dict xs => decide (xs ≠ .nil)

mutual
/-- Python hashability: lists and dicts are unhashable, tuples are hashable
iff their elements are, atoms are hashable. -/
def PyVal.hashable : PyVal → Bool
  | .list _ => false
  | .dict _ => false
  | .tuple xs => PyList.hashableAll xs
  | _ => true
/-- All elements of a Python list are hashable. -/
def PyList.hashableAll : PyList → Bool
  | .nil => true
  | .cons x xs => x.hashable && PyList.hashableAll xs
end

/-- The single-quote character of Python reprs, kept out of string literals. -/
def pyQuoteChar : Char := Char.ofNat 39

/-- The double-quote character. -/
def pyDQuote : Char := Char.ofNat 34

/-- The backslash character. -/
def pyBackslash : Char := Char.ofNat 92

/-- An opening brace for Python dict reprs. -/
def pyLBrace : String := String.singleton (Char.ofNat 123)

/-- A closing brace for Python dict reprs. -/
def pyRBrace : String := String.singleton (Char.ofNat 125)

/-- One lowercase hex digit. -/
def hexDigit (n : Nat) : Char :=
  if n < 10 then Char.ofNat (48 + n) else Char.ofNat (87 + n)

/-- Two lowercase hex digits, as in Python `\xNN` escapes. -/
def hex2 (n : Nat) : String :=
  String.singleton (hexDigit (n / 16 % 16)) ++ String.singleton (hexDigit (n % 16))

/-- Python `repr` escaping of one character under the chosen delimiter:
backslash and the delimiter are backslash-escaped; newline, carriage return
and tab use their two-character escapes; other ASCII control characters and
0x7f become `\xNN`; everything else renders as itself. -/
def pyEscapeChar (delim : Char) (c : Char) : String :=
  if c = pyBackslash then String.singleton pyBackslash ++ String.singleton pyBackslash
  else if c = delim then String.singleton pyBackslash ++ String.singleton delim
  else if c = Char.ofNat 10 then String.singleton pyBackslash ++ "n"
  else if c = Char.ofNat 13 then String.singleton pyBackslash ++ "r"
  else if c = Char.ofNat 9 then String.singleton pyBackslash ++ "t"
  else if c.toNat < 32 || c.toNat = 127 then
    String.singleton pyBackslash ++ "x" ++ hex2 c.toNat
  else String.singleton c

/-- Python `repr` of a string: single-quote delimiters, switching to double
quotes when the string contains a single quote but no double quote, with
the escaping above. -/
def pyStrRepr (a : String) : String :=
  let delim : Char :=
    if a.contains pyQuoteChar && !(a.contains pyDQuote) then pyDQuote else pyQuoteChar
  String.singleton delim ++ String.join (a.toList.map (pyEscapeChar delim))
    ++ String.singleton delim

/-- Python `repr` of a dict key. -/
def Key.pyRepr : Key → String
  | .s a => pyStrRepr a
  | .i n => toString n

mutual
/-- Python `repr` of a value (as used for elements nested in containers). -/
def PyVal.pyRepr : PyVal → String
  | .pnone => "None"
  | .str s => pyStrRepr s
  | .int n => toString n
  | .bool b => if b then "True" else "False"
  | .list xs => "[" ++ PyList.pyReprItems xs ++ "]"
  | .tuple (.cons v .nil) => "(" ++ v.pyRepr ++ ",)"
  | .tuple xs => "(" ++ PyList.pyReprItems xs ++ ")"
  | .dict entries => pyLBrace ++ PyDict.pyReprItems entries ++ pyRBrace
/-- Comma-joined reprs of the elements of a Python list. -/
def PyList.pyReprItems : PyList → String
  | .nil => ""
  | .cons v .nil => v.pyRepr
  | .cons v tl => v.pyRepr ++ ", " ++ PyList.pyReprItems tl
/-- Comma-joined `key: value` reprs of the entries of a Python dict. -/
def PyDict.pyReprItems : PyDict → String
  | .nil => ""
  | .cons k v .nil => k.pyRepr ++ ": " ++ v.pyRepr
  | .cons k v tl => k.pyRepr ++ ": " ++ v.pyRepr ++ ", " ++ PyDict.pyReprItems tl
end

/-- Python `str()`: strings render bare, everything else as repr. -/
def PyVal.pyStr : PyVal → String
  | .str s => s
  | v => v.pyRepr

/-- Right-operand handling of Python `"... %s ..." % v`: a non-tuple operand
formats as `str(v)`; a length-1 tuple is unpacked and its element formatted;
a tuple of any other length makes the `%` operator itself raise `TypeError`,
modelled as `none`. -/
def pyFormatArg : PyVal → Option String
  | .tuple (.cons v .nil) => some v.pyStr
  | .tuple _ => none
  | v => some v.pyStr

/-- Python `d.get(k)`: the value at key `k`, or `none` when the key is absent. -/
def PyDict.get? : PyDict → Key → Option PyVal
  | .nil, _ => none
  | .cons k v tl, key => if k = key then some v else tl.get? key

/-- Python `k in d`: key membership. -/
def PyDict.has : PyDict → Key → Bool
  | .nil, _ => false
  | .cons k _ tl, key => k = key || tl.has key

/-- Python `d[k] = v`: replace the value at `k` in place if present, else append. -/
def PyDict.set : PyDict → Key → PyVal → PyDict
  | .nil, key, v => .cons key v .nil
  | .cons k v0 tl, key, v =>
    if k = key then .cons k v tl else .cons k v0 (tl.set key v)

/-- Python `d.pop(k)`: the dict without key `k`. -/
def PyDict.erase : PyDict → Key → PyDict
  | .nil, _ => .nil
  | .cons k v tl, key => if k = key then tl.erase key else .cons k v (tl.erase key)

/-- Embed a Lean list of values as a Python list. -/
def PyList.ofList : List PyVal → PyList
  | [] => .nil
  | v :: rest => .cons v (PyList.ofList rest)

/-- Build the index-keyed dict of an aggregate error's messages. -/
def PyDict.ofIdx : List (Nat × PyVal) → PyDict
  | [] => .nil
  | (i, m) :: rest => .cons (.i i) m (PyDict.ofIdx rest)

/-- A raised `marshmallow.ValidationError`, reduced to what `OneOfSchema`
reads back from it: `normalized_messages()` and `valid_data`. -/
structure ValidationErr where
  messages : PyVal
  validData : PyVal
deriving DecidableEq, Repr

/-- Abnormal terminations of the load-side calls: a raised
`marshmallow.ValidationError` (which the wrappers catch), or the uncaught
`TypeError` escaping from `"... %s" % operand` when the operand is a tuple
of length other than one — a crash no line of `OneOfSchema` catches. -/
inductive PyErr where
  | validation (e : ValidationErr)
  | typeError
deriving DecidableEq, Repr

/-- Lift a sub-schema call outcome into the load-side result type: a raised
`ValidationError` propagates as such. -/
def liftVE : Except ValidationErr PyVal → Except PyErr PyVal
  | .ok v => .ok v
  | .error e => .error (.validation e)

/-- A domain object being dumped: its runtime class name
(`obj.__class__.__name__`) and its attribute data (what the sub-schema's
`dump` serializes). -/
structure Obj where
  className : String
  attrs : PyDict

/-- An instantiated sub-schema, as the opaque capability `OneOfSchema`
delegates to: `schema.dump(obj, many=False)` returning a record dict or
`None` (or raising), and `schema.load(data, many=False, partial=p,
unknown=u)` returning the loaded value (or raising).  The mutable
`schema.context` side channel is outside this model. -/
structure Handler where
  dump : Obj → Except ValidationErr (Option PyDict)
  load : PyDict → PyVal → PyVal → Except ValidationErr PyVal

/-- Lookup `reg.get(tag)` over the string-keyed registry. -/
def lookupStr : List (String × Handler) → String → Option Handler
  | [], _ => none
  | (k, h) :: rest, t => if k = t then some h else lookupStr rest t

/-- Lookup `self.type_schemas.get(data_type)` for an arbitrary (hashable) tag
value: only string tags can match the string-keyed registry. -/
def lookupTag (reg : List (String × Handler)) : PyVal → Option Handler
  | .str t => lookupStr reg t
  | _ => none

/-- The state of a constructed `OneOfSchema` instance: its class-level
configuration (`type_field`, `type_field_remove`, `type_field_dump`,
`type_schemas`), the overridable `get_obj_type`, and the `marshmallow.Schema`
state `_load`/`load` consults (`self.unknown`, `self.partial`, `self.many`).
`self.partial` is named `pdefault` here. -/
structure OneOfSchema where
  type_field : String := "type"
  type_field_remove : Bool := true
  type_field_dump : Bool := true
  type_schemas : List (String × Handler)
  get_obj_type : Obj → String := fun o => o.className
  unknown : PyVal := .str "raise"
  pdefault : PyVal := .bool false
  many : Bool := false

/-- The error pair `_dump` returns for a falsy resolved tag:
`(None, \x7b"_schema": "Unknown object class: %s" % obj.__class__.__name__\x7d)`. -/
def unknownTypePair (o : Obj) : PyVal :=
  .tuple (.cons .pnone (.cons
    (.dict (.cons (.s "_schema") (.str ("Unknown object class: " ++ o.className)) .nil))
    .nil))

/-- The error pair `_dump` returns for a tag with no registered handler:
`(None, \x7b"_schema": "Unsupported object type: %s" % obj_type\x7d)`. -/
def unsupportedTypePair (obj_type : String) : PyVal :=
  .tuple (.cons .pnone (.cons
    (.dict (.cons (.s "_schema") (.str ("Unsupported object type: " ++ obj_type)) .nil))
    .nil))

/-- Embeds `OneOfSchema._dump` (one_of_schema.py lines 129–146): resolve the
tag with `get_obj_type`; a falsy tag or a tag with no registered handler
RETURNS an error pair (no exception); otherwise delegate to the handler's
dump and, when the result is not `None` and `type_field_dump` holds, write
the tag into the result's `type_field` after the delegated dump. -/
def OneOfSchema._dump (s : OneOfSchema) (obj : Obj) : Except ValidationErr PyVal :=
  let obj_type := s.get_obj_type obj
  if obj_type = "" then
    .ok (unknownTypePair obj)
  else
    match lookupStr s.type_schemas obj_type with
    | none => .ok (unsupportedTypePair obj_type)
    | some schema =>
      match schema.dump obj with
      | .error e => .error e
      | .ok none => .ok .pnone
      | .ok (some result) =>
        if s.type_field_dump then
          .ok (.dict (result.set (.s s.type_field) (.str obj_type)))
        else
          .ok (.dict result)

/-- The `for idx, o in enumerate(obj)` loop of `OneOfSchema.dump`
(lines 110–117): returns `result_data` and `result_errors` (as an
index-ordered entry list).  A `ValidationError` raised by `_dump` for one
item is caught: its `normalized_messages()` join `result_errors` under the
item's index and its `valid_data` is appended to `result_data`; a normal
`_dump` return is appended as is. -/
def OneOfSchema.dumpLoop (s : OneOfSchema) (objs : List Obj) (idx : Nat) :
    List PyVal × List (Nat × PyVal) :=
  match objs with
  | [] => ([], [])
  | o :: rest =>
    let acc := s.dumpLoop rest (idx + 1)
    match s._dump o with
    | .ok v => (v :: acc.1, acc.2)
    | .error e => (e.validData :: acc.1, (idx, e.messages) :: acc.2)

/-- Input to `OneOfSchema.dump`, according to the effective `many` flag. -/
inductive DumpInput where
  | one (obj : Obj)
  | many (objs : List Obj)

/-- Embeds `OneOfSchema.dump` (lines 104–127).  `many=False`: the `_dump`
result is returned (or its exception propagates).  `many=True`: the loop
above runs over all items; if `result_errors` is empty the `result_data`
list is returned, else `ValidationError(result_errors, valid_data=result)`
is raised. -/
def OneOfSchema.dump (s : OneOfSchema) (input : DumpInput) : Except ValidationErr PyVal :=
  match input with
  | .one obj => s._dump obj
  | .many objs =>
    let acc := s.dumpLoop objs 0
    if acc.2 = [] then
      .ok (.list (PyList.ofList acc.1))
    else
      .error ⟨.dict (PyDict.ofIdx acc.2), .list (PyList.ofList acc.1)⟩

/-- Error messages keyed by one field name, as `_load` raises them:
`\x7bfield: [msg]\x7d`. -/
def fieldErrMsgs (field msg : String) : PyVal :=
  .dict (.cons (.s field) (.list (.cons (.str msg) .nil)) .nil)

/-- The structural error messages of `_load` for non-dict input:
`\x7b"_schema": "Invalid data type: %s" % data\x7d` (a bare string, not a list). -/
def schemaErrMsg (msg : String) : PyVal :=
  .dict (.cons (.s "_schema") (.str msg) .nil)

/-- Embeds `OneOfSchema._load` (lines 182–212).  Non-dict input raises the
structural error — unless the input is a tuple of length other than one, in
which case the `%`-formatting of the message itself raises an uncaught
`TypeError` (`pyFormatArg`).  Otherwise the input is cloned (`data =
dict(data)`; the aliasing content of that line lives in `loadRef` below),
the effective unknown policy is `unknown or self.unknown`, the tag is read
with `data.get(self.type_field)` and, when present and `type_field_remove`
holds, popped from the clone.  A falsy (or absent) tag raises the
required-field error; an unhashable tag raises the invalid-value error (the
`TypeError` of the registry lookup is caught) and an unregistered hashable
tag the unsupported-value error — in both of these the message formatting
crashes instead when the tag is a tuple of length other than one; otherwise
the handler's `load` is delegated to with the stripped clone, the given
partial and the effective unknown policy, and its result is returned
verbatim. -/
def OneOfSchema._load (s : OneOfSchema) (data : PyVal) (p u : PyVal) :
    Except PyErr PyVal :=
  match data with
  | .dict entries =>
    let u' := if u.truthy then u else s.unknown
    let data_type := entries.get? (.s s.type_field)
    let stripped :=
      if entries.has (.s s.type_field) && s.type_field_remove then
        entries.erase (.s s.type_field)
      else entries
    match data_type with
    | none =>
      .error (.validation
        ⟨fieldErrMsgs s.type_field "Missing data for required field.", .pnone⟩)
    | some dt =>
      if dt.truthy = false then
        .error (.validation
          ⟨fieldErrMsgs s.type_field "Missing data for required field.", .pnone⟩)
      else if dt.hashable then
        match lookupTag s.type_schemas dt with
        | some schema => liftVE (schema.load stripped p u')
        | none =>
          match pyFormatArg dt with
          | some m =>
            .error (.validation
              ⟨fieldErrMsgs s.type_field ("Unsupported value: " ++ m), .pnone⟩)
          | none => .error .typeError
      else
        match pyFormatArg dt with
        | some m =>
          .error (.validation
            ⟨fieldErrMsgs s.type_field ("Invalid value: " ++ m), .pnone⟩)
        | none => .error .typeError
  | other =>
    match pyFormatArg other with
    | some m =>
      .error (.validation ⟨schemaErrMsg ("Invalid data type: " ++ m), .pnone⟩)
    | none => .error .typeError

/-- The `for idx, item in enumerate(data)` loop of `OneOfSchema.load`
(lines 163–169): the source calls `self._load(item, partial=partial)`
WITHOUT forwarding the caller's `unknown`, so each item is loaded with
`unknown=None`; a raised `ValidationError` is collected per index and the
loop continues, while an uncaught `TypeError` aborts the whole loop. -/
def OneOfSchema.loadLoop (s : OneOfSchema) (items : List PyVal) (p : PyVal) (idx : Nat) :
    Except PyErr (List PyVal × List (Nat × PyVal)) :=
  match items with
  | [] => .ok ([], [])
  | d :: rest =>
    match s._load d p .pnone with
    | .ok v =>
      match s.loadLoop rest p (idx + 1) with
      | .ok acc => .ok (v :: acc.1, acc.2)
      | .error pe => .error pe
    | .error (.validation e) =>
      match s.loadLoop rest p (idx + 1) with
      | .ok acc => .ok (e.validData :: acc.1, (idx, e.messages) :: acc.2)
      | .error pe => .error pe
    | .error .typeError => .error .typeError

/-- Input to `OneOfSchema.load`, according to the effective `many` flag. -/
inductive LoadInput where
  | one (data : PyVal)
  | many (items : List PyVal)

/-- Embeds `OneOfSchema.load` (lines 148–180).  The effective partial is
`self.partial` when the caller passed `None`.  `many=False`: `_load` is
attempted; on success its value is returned; a raised `ValidationError` is
re-raised as `ValidationError(error.normalized_messages(),
valid_data=[error.valid_data])` (unless its messages are falsy, in which
case `[error.valid_data]` is returned), and an uncaught `TypeError`
propagates.  `many=True`: the loop above runs (dropping the caller's
`unknown`); a crash propagates; otherwise, if any index failed the
aggregate error is raised, else the list of loaded values is returned. -/
def OneOfSchema.load (s : OneOfSchema) (input : LoadInput) (p u : PyVal) :
    Except PyErr PyVal :=
  let pEff := if p = .pnone then s.pdefault else p
  match input with
  | .one data =>
    match s._load data pEff u with
    | .ok v => .ok v
    | .error (.validation e) =>
      if e.messages.truthy then
        .error (.validation ⟨e.messages, .list (.cons e.validData .nil)⟩)
      else
        .ok (.list (.cons e.validData .nil))
    | .error .typeError => .error .typeError
  | .many items =>
    match s.loadLoop items pEff 0 with
    | .error pe => .error pe
    | .ok acc =>
      if acc.2 = [] then
        .ok (.list (PyList.ofList acc.1))
      else
        .error (.validation
          ⟨.dict (PyDict.ofIdx acc.2), .list (PyList.ofList acc.1)⟩)

/-- Embeds `OneOfSchema.validate` (lines 214–219): attempt `load` (with the
given partial, no unknown); the `except ValidationError` clause returns the
raised error's `messages`, a plain return yields the empty dict, and any
other exception — the formatting `TypeError` — propagates to the caller. -/
def OneOfSchema.validate (s : OneOfSchema) (input : LoadInput) (p : PyVal) :
    Except PyErr PyVal :=
  match s.load input p .pnone with
  | .ok _ => .ok (.dict .nil)
  | .error (.validation e) => .ok e.messages
  | .error .typeError => .error .typeError

/-- Embeds `OneOfSchema._load` with the dict objects made explicit: `heap` is a
store of Python objects, `r` the index of the caller's input dict.
`data = dict(data)` allocates a fresh cell at index `heap.length` holding a
copy, and the `data.pop(self.type_field)` write hits only that fresh cell —
whether the call then returns, raises a `ValidationError`, or crashes with
the formatting `TypeError`; the returned value is the one computed by
`_load` on the same content (the delegated handler receives the clone's
content and, being a pure capability in this model, writes no cell). -/
def OneOfSchema.loadRef (s : OneOfSchema) (heap : List PyVal) (r : Nat) (p u : PyVal) :
    List PyVal × Except PyErr PyVal :=
  match heap[r]? with
  | none => (heap, .error (.validation ⟨.dict .nil, .pnone⟩))
  | some data =>
    match data with
    | .dict entries =>
      let c := heap.length
      let cloneAfterPop :=
        if entries.has (.s s.type_field) && s.type_field_remove then
          PyVal.dict (entries.erase (.s s.type_field))
        else PyVal.dict entries
      ((heap ++ [PyVal.dict entries]).set c cloneAfterPop, s._load (.dict entries) p u)
    | other => (heap, s._load other p u)

/-- Embeds `self.type_field_dump` as computed by `OneOfSchema.__init__`
(lines 63–70): an `only` argument that is not `None` sets it to
`self.type_field in only`; a truthy `exclude` argument then sets it to
`self.type_field not in exclude`; otherwise the class default stands. -/
def init_type_field_dump (type_field : String) (dflt : Bool)
    (only : Option (List String)) (exclude : List String) : Bool :=
  let d := match only with
    | some o => decide (type_field ∈ o)
    | none => dflt
  if exclude ≠ [] then decide (type_field ∉ exclude) else d

/-- The construction-time shape of a sub-schema class, as
`_create_type_schema_instance` introspects it: `Meta.fields`
(`SchemaCls.opts.fields`), the declared field names, and `Meta.additional`. -/
structure SubSchemaCls where
  optsFields : List String
  declaredFields : List String
  optsAdditional : List String

/-- Embeds `available_field_names` of `_create_type_schema_instance` (lines 82–92):
`set(SchemaCls.opts.fields)` when truthy, else the declared field names,
united with `set(SchemaCls.opts.additional)` when that is truthy. -/
def available_field_names (c : SubSchemaCls) : List String :=
  if c.optsFields ≠ [] then c.optsFields
  else c.declaredFields ++ (if c.optsAdditional ≠ [] then c.optsAdditional else [])

/-- The `(only, exclude)` arguments `_create_type_schema_instance`
(lines 81–98) passes to `SchemaCls(only=only, exclude=exclude)`: when either
requested projection is truthy, each truthy one is intersected with the
sub-schema's available field names; otherwise both are forwarded untouched.
Note `OneOfSchema.__init__` passes its `only`/`exclude` arguments here as
received — the type field is not removed from them. -/
def create_type_schema_projection (c : SubSchemaCls)
    (only : Option (List String)) (exclude : List String) :
    Option (List String) × List String :=
  let onlyTruthy := match only with
    | some o => decide (o ≠ [])
    | none => false
  if onlyTruthy || decide (exclude ≠ []) then
    let avail := available_field_names c
    let only' := match only with
      | some o => if o ≠ [] then some (o.filter (· ∈ avail)) else only
      | none => none
    let exclude' := if exclude ≠ [] then exclude.filter (· ∈ avail) else exclude
    (only', exclude')
  else (only, exclude)

/-- The value `dump(many=True)` appends at an item's index: the `_dump`
return on success, the raised error's `valid_data` on failure. -/
def dumpItemResult (s : OneOfSchema) (o : Obj) : PyVal :=
  match s._dump o with
  | .ok v => v
  | .error e => e.validData

/-- The aggregate-error contribution of one indexed item of
`dump(many=True)`: `none` for a normal `_dump` return, the index paired
with the error's `normalized_messages()` for a raise. -/
def dumpItemErr (s : OneOfSchema) : Nat × Obj → Option (Nat × PyVal) :=
  fun io =>
    match s._dump io.2 with
    | .ok _ => none
    | .error e => some (io.1, e.messages)

theorem PyDict.get?_set_self : (d : PyDict) → (k : Key) → (v : PyVal) →
    (d.set k v).get? k = some v
  | .nil, k, v => by simp [PyDict.set, PyDict.get?]
  | .cons k0 v0 tl, k, v => by
    by_cases h : k0 = k <;>
      simp [PyDict.set, PyDict.get?, h, PyDict.get?_set_self tl k v]

theorem PyDict.has_set_self : (d : PyDict) → (k : Key) → (v : PyVal) →
    (d.set k v).has k = true
  | .nil, k, v => by simp [PyDict.set, PyDict.has]
  | .cons k0 v0 tl, k, v => by
    by_cases h : k0 = k <;>
      simp [PyDict.set, PyDict.has, h, PyDict.has_set_self tl k v]

theorem PyDict.erase_set_self : (d : PyDict) → (k : Key) → (v : PyVal) →
    (d.set k v).erase k = d.erase k
  | .nil, k, v => by simp [PyDict.set, PyDict.erase]
  | .cons k0 v0 tl, k, v => by
    by_cases h : k0 = k <;>
      simp [PyDict.set, PyDict.erase, h, PyDict.erase_set_self tl k v]

theorem PyDict.erase_of_not_has : (d : PyDict) → (k : Key) → d.has k = false →
    d.erase k = d
  | .nil, _, _ => by simp [PyDict.erase]
  | .cons k0 v0 tl, k, h => by
    simp only [PyDict.has, Bool.or_eq_false_iff] at h
    simp [PyDict.erase, PyDict.erase_of_not_has tl k h.2,
      decide_eq_false_iff_not.mp h.1]

theorem OneOfSchema.dumpLoop_eq (s : OneOfSchema) (objs : List Obj) (idx : Nat) :
    s.dumpLoop objs idx =
      (objs.map (dumpItemResult s), (List.enumFrom idx objs).filterMap (dumpItemErr s)) := by
  induction objs generalizing idx with
  | nil => rfl
  | cons o rest ih =>
    simp only [OneOfSchema.dumpLoop, ih, List.enumFrom, List.filterMap_cons, List.map_cons]
    cases h : s._dump o <;> simp [dumpItemResult, dumpItemErr, h]

theorem mem_dump_errs (s : OneOfSchema) (objs : List Obj) (k i : Nat) (m : PyVal) :
    (i, m) ∈ (List.enumFrom k objs).filterMap (dumpItemErr s) ↔
      ∃ j, ∃ hj : j < objs.length, i = k + j ∧
        ∃ e : ValidationErr, s._dump objs[j] = .error e ∧ e.messages = m := by
  induction objs generalizing k with
  | nil => simp [List.enumFrom]
  | cons o rest ih =>
    simp only [List.enumFrom, List.filterMap_cons]
    cases h : s._dump o with
    | ok v =>
      simp only [dumpItemErr, h, ih]
      constructor
      · rintro ⟨j, hj, rfl, e, he, hm⟩
        exact ⟨j + 1, by simpa using hj, by omega, e, by simpa using he, hm⟩
      · rintro ⟨j, hj, rfl, e, he, hm⟩
        match j with
        | 0 => simp only [List.getElem_cons_zero] at he; rw [he] at h; cases h
        | j' + 1 =>
          exact ⟨j', by simpa using hj, by omega, e, by simpa using he, hm⟩
    | error e =>
      simp only [dumpItemErr, h, List.mem_cons, Prod.mk.injEq, ih]
      constructor
      · rintro (⟨rfl, rfl⟩ | ⟨j, hj, rfl, e', he', hm⟩)
        · exact ⟨0, by simp, by omega, e, by simpa using h, rfl⟩
        · exact ⟨j + 1, by simpa using hj, by omega, e', by simpa using he', hm⟩
      · rintro ⟨j, hj, rfl, e', he', hm⟩
        match j with
        | 0 =>
          simp only [List.getElem_cons_zero] at he'
          rw [he'] at h
          injection h with h'
          exact Or.inl ⟨by omega, by rw [← hm, h']⟩
        | j' + 1 =>
          exact Or.inr ⟨j', by simpa using hj, by omega, e', by simpa using he', hm⟩

/-- The `FooSchema`-style handler of the source docstring example: dumps an
object's attribute dict as its record, loads a record back as a plain dict. -/
def fooHandler : Handler :=
  { dump := fun o => .ok (some o.attrs)
    load := fun d _ _ => .ok (.dict d) }

/-- The `BarSchema`-style handler of the source docstring example. -/
def barHandler : Handler :=
  { dump := fun o => .ok (some o.attrs)
    load := fun d _ _ => .ok (.dict d) }

/-- The `MyUberSchema` of the source docstring example, with the default
`get_obj_type` (the class name). -/
def uberSchema : OneOfSchema :=
  { type_schemas := [("Foo", fooHandler), ("Bar", barHandler)] }

/-- A `Foo(foo="hello")` object. -/
def fooObj : Obj := ⟨"Foo", .cons (.s "foo") (.str "hello") .nil⟩

/-- An object of a class with no registered schema. -/
def ghostObj : Obj := ⟨"Ghost", .nil⟩

/-- An object whose overridden tag resolver yields a falsy tag (below). -/
def noneObj : Obj := ⟨"NoneType", .nil⟩

/-- A schema whose overridden `get_obj_type` returns a falsy tag for
`noneObj` and the class name otherwise. -/
def mixedTagSchema : OneOfSchema :=
  { type_schemas := [("Foo", fooHandler)]
    get_obj_type := fun o => if o.className = "NoneType" then "" else o.className }

/-- A handler whose `load` returns the unknown policy it received, making
the forwarded policy observable. -/
def echoUnknownHandler : Handler :=
  { dump := fun _ => .ok none
    load := fun _ _ u => .ok u }

/-- A registry holding only the echo handler, under tag `"t"`. -/
def echoSchema : OneOfSchema := { type_schemas := [("t", echoUnknownHandler)] }

/-- A handler whose `dump` produces a record that already holds a field
named `"type"`. -/
def clashHandler : Handler :=
  { dump := fun _ =>
      .ok (some (.cons (.s "type") (.str "WRONG") (.cons (.s "x") (.int 1) .nil)))
    load := fun _ _ _ => .ok .pnone }

/-- A schema registering `clashHandler` under tag `"Clash"`. -/
def clashSchema : OneOfSchema := { type_schemas := [("Clash", clashHandler)] }

/-- An object dispatching to `clashHandler`. -/
def clashObj : Obj := ⟨"Clash", .nil⟩

/-- A handler whose `dump` always raises a field-level validation error
with an empty dict as partial valid data. -/
def failHandler : Handler :=
  { dump := fun _ => .error ⟨fieldErrMsgs "bar" "Not a valid integer.", .dict .nil⟩
    load := fun _ _ _ => .ok .pnone }

/-- A schema where class `Bad` dispatches to the always-failing handler. -/
def mixedSchema : OneOfSchema :=
  { type_schemas := [("Foo", fooHandler), ("Bad", failHandler)] }

/-- An object dispatching to the always-failing handler. -/
def badObj : Obj := ⟨"Bad", .nil⟩

/-- A sub-schema class declaring a real field named like the tag field. -/
def typeClashCls : SubSchemaCls := ⟨[], ["type", "foo"], []⟩

/-- When every item of the batch dumps without raising, the loop collects
no error entry. -/
theorem dump_errs_nil (s : OneOfSchema) (objs : List Obj) (k : Nat)
    (h : ∀ o ∈ objs, (s._dump o).isOk = true) :
    (List.enumFrom k objs).filterMap (dumpItemErr s) = [] := by
  induction objs generalizing k with
  | nil => simp [List.enumFrom]
  | cons o rest ih =>
    have ho := h o (by simp)
    simp only [List.enumFrom, List.filterMap_cons]
    cases hd : s._dump o with
    | ok v =>
      simpa [dumpItemErr, hd] using ih (k + 1) (fun o' ho' => h o' (by simp [ho']))
    | error e => rw [hd] at ho; cases ho

/-- C1 counterexample: `dump(obj)` with `many=False` for an object whose
resolved tag has no registered handler returns the pair
`(None, \x7b"_schema": "Unsupported object type: Ghost"\x7d)` as a normal
result — it raises nothing, contradicting the claim that single-item dump
errors are raised to the caller. -/
theorem dump_single_unsupported_tag_does_not_raise :
    uberSchema.dump (.one ghostObj) = .ok (unsupportedTypePair "Ghost") ∧
    (uberSchema.dump (.one ghostObj)).isOk = true :=
  ⟨rfl, rfl⟩

/-- C1 (amended): a single-item dump of a value whose resolved tag is falsy
returns — normally, without raising — the pair
`(None, \x7b"_schema": "Unknown object class: <class name>"\x7d)`, and one
whose tag has no registered handler returns the pair
`(None, \x7b"_schema": "Unsupported object type: <tag>"\x7d)`. -/
theorem dump_single_tag_failure_returns_error_pair (s : OneOfSchema) (o : Obj) :
    (s.get_obj_type o = "" → s.dump (.one o) = .ok (unknownTypePair o)) ∧
    (s.get_obj_type o ≠ "" → lookupStr s.type_schemas (s.get_obj_type o) = none →
      s.dump (.one o) = .ok (unsupportedTypePair (s.get_obj_type o))) := by
  constructor
  · intro h
    simp [OneOfSchema.dump, OneOfSchema._dump, h]
  · intro h hl
    simp [OneOfSchema.dump, OneOfSchema._dump, h, hl]

/-- Witness for the amended C1 at concrete inputs: both the falsy-tag case
and the unregistered-tag case. -/
theorem dump_single_tag_failure_returns_error_pair_witness :
    mixedTagSchema.dump (.one noneObj) = .ok (unknownTypePair noneObj) ∧
    uberSchema.dump (.one ghostObj) = .ok (unsupportedTypePair "Ghost") :=
  ⟨(dump_single_tag_failure_returns_error_pair mixedTagSchema noneObj).1 rfl,
   (dump_single_tag_failure_returns_error_pair uberSchema ghostObj).2
     (by decide) rfl⟩

/-- C6: batch dump (`many=True`) processes the items strictly in input
order and never aborts on a per-item `ValidationError`: the per-index
results are exactly `objs.map (dumpItemResult s)` (the item's record on
success, the raised error's `valid_data` on failure, each at the item's own
index, so the sequence has the input's length); the aggregate messages hold
exactly one entry per failing index, keyed by that index with that item's
messages; if no index failed the result list is returned normally,
otherwise the aggregate `ValidationError` is raised carrying both. -/
theorem dump_many_batch_aggregation (s : OneOfSchema) (objs : List Obj) :
    ((List.enumFrom 0 objs).filterMap (dumpItemErr s) = [] →
      s.dump (.many objs) = .ok (.list (PyList.ofList (objs.map (dumpItemResult s))))) ∧
    ((List.enumFrom 0 objs).filterMap (dumpItemErr s) ≠ [] →
      s.dump (.many objs) = .error
        ⟨.dict (PyDict.ofIdx ((List.enumFrom 0 objs).filterMap (dumpItemErr s))),
         .list (PyList.ofList (objs.map (dumpItemResult s)))⟩) ∧
    (objs.map (dumpItemResult s)).length = objs.length ∧
    (∀ i m, (i, m) ∈ (List.enumFrom 0 objs).filterMap (dumpItemErr s) ↔
      ∃ (_ : i < objs.length) (e : ValidationErr),
        s._dump objs[i] = .error e ∧ e.messages = m) ∧
    (∀ i, (hi : i < objs.length) → ∀ v : PyVal, s._dump objs[i] = .ok v →
      (objs.map (dumpItemResult s))[i]? = some v) ∧
    (∀ i, (hi : i < objs.length) → ∀ e : ValidationErr, s._dump objs[i] = .error e →
      (objs.map (dumpItemResult s))[i]? = some e.validData) := by
  have hloop := s.dumpLoop_eq objs 0
  refine ⟨?_, ?_, by simp, ?_, ?_, ?_⟩
  · intro h
    simp [OneOfSchema.dump, hloop, h]
  · intro h
    simp [OneOfSchema.dump, hloop, h]
  · intro i m
    rw [mem_dump_errs]
    constructor
    · rintro ⟨j, hj, rfl, e, he, hm⟩
      exact ⟨by simpa using hj, e, by simpa using he, hm⟩
    · rintro ⟨hi, e, he, hm⟩
      exact ⟨i, hi, by omega, e, he, hm⟩
  · intro i hi v hv
    simp [List.getElem?_map, List.getElem?_eq_getElem hi, dumpItemResult, hv]
  · intro i hi e he
    simp [List.getElem?_map, List.getElem?_eq_getElem hi, dumpItemResult, he]

/-- Witness for C6 at a concrete batch `[a, b, c]` where only `b`'s handler
raises: the aggregate error is keyed by index 1 only, and the valid-data
sequence has length 3 with the partial data at index 1. -/
theorem dump_many_batch_aggregation_witness :
    mixedSchema.dump (.many [fooObj, badObj, fooObj]) = .error
      ⟨.dict (.cons (.i 1) (fieldErrMsgs "bar" "Not a valid integer.") .nil),
       .list (.cons
         (.dict (.cons (.s "foo") (.str "hello") (.cons (.s "type") (.str "Foo") .nil)))
         (.cons (.dict .nil)
           (.cons
             (.dict (.cons (.s "foo") (.str "hello") (.cons (.s "type") (.str "Foo") .nil)))
             .nil)))⟩ :=
  (dump_many_batch_aggregation mixedSchema [fooObj, badObj, fooObj]).2.1 (by decide)

/-- C10: in a batch dump, an item whose resolved tag is falsy, or whose tag
has no registered handler, makes `_dump` RETURN the pair
`(None, \x7b"_schema": message\x7d)` rather than raise, so it contributes no
entry to the aggregate error and the pair sits at the item's index in the
result sequence; when no item's handler raises, the batch call returns
normally with these pairs embedded among the valid records. -/
theorem dump_many_embeds_tag_error_pairs (s : OneOfSchema) (objs : List Obj) :
    (∀ o ∈ objs, s.get_obj_type o = "" →
      s._dump o = .ok (unknownTypePair o) ∧
      dumpItemResult s o = unknownTypePair o ∧
      ∀ i, dumpItemErr s (i, o) = none) ∧
    (∀ o ∈ objs, s.get_obj_type o ≠ "" →
      lookupStr s.type_schemas (s.get_obj_type o) = none →
      s._dump o = .ok (unsupportedTypePair (s.get_obj_type o)) ∧
      dumpItemResult s o = unsupportedTypePair (s.get_obj_type o) ∧
      ∀ i, dumpItemErr s (i, o) = none) ∧
    ((∀ o ∈ objs, (s._dump o).isOk = true) →
      s.dump (.many objs) = .ok (.list (PyList.ofList (objs.map (dumpItemResult s)))) ∧
      ∀ i, (hi : i < objs.length) →
        (objs.map (dumpItemResult s))[i]? = some (dumpItemResult s objs[i])) := by
  refine ⟨?_, ?_, ?_⟩
  · intro o _ h
    have hd : s._dump o = .ok (unknownTypePair o) := by
      simp [OneOfSchema._dump, h]
    exact ⟨hd, by simp [dumpItemResult, hd], fun i => by simp [dumpItemErr, hd]⟩
  · intro o _ h hl
    have hd : s._dump o = .ok (unsupportedTypePair (s.get_obj_type o)) := by
      simp [OneOfSchema._dump, h, hl]
    exact ⟨hd, by simp [dumpItemResult, hd], fun i => by simp [dumpItemErr, hd]⟩
  · intro h
    constructor
    · simp [OneOfSchema.dump, s.dumpLoop_eq objs 0, dump_errs_nil s objs 0 h]
    · intro i hi
      simp [List.getElem?_map, List.getElem?_eq_getElem hi]

/-- Witness for C10: a batch holding a well-handled item, an item with an
unregistered tag and an item with a falsy tag returns normally, with the
two error pairs embedded at indices 1 and 2. -/
theorem dump_many_embeds_tag_error_pairs_witness :
    mixedTagSchema.dump (.many [fooObj, ghostObj, noneObj]) = .ok (.list
      (.cons (.dict (.cons (.s "foo") (.str "hello") (.cons (.s "type") (.str "Foo") .nil)))
        (.cons (unsupportedTypePair "Ghost")
          (.cons (unknownTypePair noneObj) .nil)))) :=
  ((dump_many_embeds_tag_error_pairs mixedTagSchema [fooObj, ghostObj, noneObj]).2.2
    (by decide)).1

theorem PyDict.has_of_get?_some : (d : PyDict) → (k : Key) → (v : PyVal) →
    d.get? k = some v → d.has k = true
  | .nil, k, v, h => by simp [PyDict.get?] at h
  | .cons k0 v0 tl, k, v, h => by
    by_cases hk : k0 = k
    · simp [PyDict.has, hk]
    · simp only [PyDict.get?, if_neg hk] at h
      simp [PyDict.has, PyDict.has_of_get?_some tl k v h]

/-- When the tag is present, truthy, hashable and registered, `_load`
delegates to the found handler's `load` with the clone (stripped of the tag
field when `type_field_remove` holds), the given partial and the effective
unknown policy `unknown or self.unknown`, and returns its result verbatim. -/
theorem OneOfSchema.load_delegation (s : OneOfSchema) (entries : PyDict)
    (p u : PyVal) (dt : PyVal) (h : Handler)
    (hget : entries.get? (.s s.type_field) = some dt)
    (ht : dt.truthy = true)
    (hh : dt.hashable = true)
    (hl : lookupTag s.type_schemas dt = some h) :
    s._load (.dict entries) p u =
      liftVE (h.load
        (if s.type_field_remove then entries.erase (.s s.type_field) else entries)
        p (if u.truthy then u else s.unknown)) := by
  have hhas := PyDict.has_of_get?_some entries (.s s.type_field) dt hget
  simp [OneOfSchema._load, hget, ht, hh, hl, hhas]

/-- C2: round-trip under the default flags.  If `v`'s tag `t` is non-empty
with registered handler `H`, `H`'s dump succeeds with a record `r` that has
no field named like the tag field, and `H`'s load accepts `r` back (with
the same effective partial/unknown the dispatch layer computes), then
`dump` writes `t` into the tag field of the output record, and `load` of
that output reads `t`, dispatches back to `H` on the stripped record `r`,
and returns `H`'s result verbatim. -/
theorem dump_then_load_roundtrip (s : OneOfSchema) (o : Obj) (h : Handler)
    (r : PyDict) (w : PyVal) (p u : PyVal)
    (hinj : s.type_field_dump = true)
    (hrm : s.type_field_remove = true)
    (htag : s.get_obj_type o ≠ "")
    (hlook : lookupStr s.type_schemas (s.get_obj_type o) = some h)
    (hdump : h.dump o = .ok (some r))
    (hnotag : r.has (.s s.type_field) = false)
    (hload : h.load r (if p = .pnone then s.pdefault else p)
        (if u.truthy then u else s.unknown) = .ok w) :
    s.dump (.one o) = .ok (.dict (r.set (.s s.type_field) (.str (s.get_obj_type o)))) ∧
    (r.set (.s s.type_field) (.str (s.get_obj_type o))).get? (.s s.type_field)
      = some (.str (s.get_obj_type o)) ∧
    s.load (.one (.dict (r.set (.s s.type_field) (.str (s.get_obj_type o))))) p u
      = .ok w := by
  refine ⟨?_, PyDict.get?_set_self r _ _, ?_⟩
  · simp [OneOfSchema.dump, OneOfSchema._dump, htag, hlook, hdump, hinj]
  · have hstrip : (r.set (.s s.type_field) (.str (s.get_obj_type o))).erase
        (.s s.type_field) = r := by
      rw [PyDict.erase_set_self, PyDict.erase_of_not_has r _ hnotag]
    have hdel := s.load_delegation (r.set (.s s.type_field) (.str (s.get_obj_type o)))
      (if p = .pnone then s.pdefault else p) u (.str (s.get_obj_type o)) h
      (PyDict.get?_set_self r _ _)
      (by simp [PyVal.truthy, htag])
      (by simp [PyVal.hashable])
      (by simpa [lookupTag] using hlook)
    rw [hrm] at hdel
    simp only [if_true] at hdel
    rw [hstrip, hload] at hdel
    simp [OneOfSchema.load, hdel, liftVE]

/-- Witness for C2: the docstring example's `Foo` round-trips:
`dump(Foo(foo="hello"))` yields the tagged record and loading it back
yields the handler's verbatim result on the stripped record. -/
theorem dump_then_load_roundtrip_witness :
    uberSchema.dump (.one fooObj)
      = .ok (.dict (.cons (.s "foo") (.str "hello") (.cons (.s "type") (.str "Foo") .nil))) ∧
    uberSchema.load
      (.one (.dict (.cons (.s "foo") (.str "hello") (.cons (.s "type") (.str "Foo") .nil))))
      .pnone .pnone
      = .ok (.dict (.cons (.s "foo") (.str "hello") .nil)) := by
  have h := dump_then_load_roundtrip uberSchema fooObj fooHandler
    (.cons (.s "foo") (.str "hello") .nil)
    (.dict (.cons (.s "foo") (.str "hello") .nil))
    .pnone .pnone rfl rfl (by decide) rfl rfl (by decide) rfl
  exact ⟨h.1, h.2.2⟩

/-- C3 evidence: the batch branch of `load` calls
`self._load(item, partial=partial, **kwargs)` without forwarding the
caller's `unknown`, so the delegated handler observes the schema's own
default (`"raise"`) although the caller passed `"EXCLUDE"`; the
single-item branch of the very same call forwards it.  The handler here
echoes the unknown policy it receives, making the dropped argument
observable in the output. -/
theorem load_many_drops_caller_unknown :
    echoSchema.load (.many [.dict (.cons (.s "type") (.str "t") .nil)])
      .pnone (.str "EXCLUDE")
      = .ok (.list (.cons (.str "raise") .nil)) ∧
    echoSchema.load (.one (.dict (.cons (.s "type") (.str "t") .nil)))
      .pnone (.str "EXCLUDE")
      = .ok (.str "EXCLUDE") ∧
    (PyVal.str "raise") ≠ (PyVal.str "EXCLUDE") :=
  ⟨rfl, rfl, by decide⟩

/-- C4 counterexample: with `only = ["type", "foo"]` and a sub-schema class
declaring a real field literally named `"type"`, the projection forwarded
to that handler is `["type", "foo"]` — the tag field is NOT excluded from
what the handler receives, contradicting the claim that the forwarded
projection excludes the tag field entirely. -/
theorem forwarded_projection_contains_tag_field :
    (create_type_schema_projection typeClashCls (some ["type", "foo"]) []).1
      = some ["type", "foo"] ∧
    "type" ∈ ((create_type_schema_projection typeClashCls
      (some ["type", "foo"]) []).1.getD []) := by
  constructor
  · decide
  · decide

/-- C4 (amended): at construction, an `only` containing the tag field keeps
dump-time tag injection enabled provided the tag field is not also in
`exclude` (a truthy `exclude` is consulted after `only` and wins), and any
`exclude` containing the tag field disables injection; the projection
forwarded to a handler is the requested one intersected with that handler's
available field set (`Meta.fields` when set, else the declared fields plus
`Meta.additional`) — the tag field is not specially removed, so it is
forwarded exactly when the handler's available set holds it — and a
requested field absent from a handler's available set is dropped for that
handler, a silent no-op. -/
theorem init_projection_narrowing (tf : String) (dflt : Bool)
    (only exclude : List String) (c : SubSchemaCls) :
    (tf ∈ only → tf ∉ exclude → init_type_field_dump tf dflt (some only) exclude = true) ∧
    (tf ∈ exclude → ∀ o, init_type_field_dump tf dflt o exclude = false) ∧
    (only ≠ [] → (create_type_schema_projection c (some only) exclude).1 =
      some (only.filter (· ∈ available_field_names c))) ∧
    (exclude ≠ [] → (create_type_schema_projection c (some only) exclude).2 =
      exclude.filter (· ∈ available_field_names c)) ∧
    (∀ f, f ∈ only.filter (· ∈ available_field_names c) ↔
      f ∈ only ∧ f ∈ available_field_names c) ∧
    (∀ f, f ∉ available_field_names c →
      f ∉ only.filter (· ∈ available_field_names c) ∧
      f ∉ exclude.filter (· ∈ available_field_names c)) := by
  refine ⟨?_, ?_, ?_, ?_, ?_, ?_⟩
  · intro hin hnotex
    by_cases hex : exclude = [] <;>
      simp [init_type_field_dump, hex, hin, hnotex]
  · intro hin o
    have hne : exclude ≠ [] := List.ne_nil_of_mem hin
    simp [init_type_field_dump, hne, hin]
  · intro hne
    simp [create_type_schema_projection, hne]
  · intro hne
    by_cases ho : only = [] <;>
      simp [create_type_schema_projection, hne, ho]
  · intro f
    simp [List.mem_filter]
  · intro f hf
    simp [List.mem_filter, hf]

/-- Witness for the amended C4: the tag field in `only` keeps injection on;
the tag field in `exclude` turns it off; a requested field absent from the
handler's declared fields is filtered away while the declared one is kept. -/
theorem init_projection_narrowing_witness :
    init_type_field_dump "type" true (some ["type", "foo"]) [] = true ∧
    init_type_field_dump "type" true (some ["type"]) ["type"] = false ∧
    (create_type_schema_projection typeClashCls (some ["bar", "foo"]) []).1
      = some ["foo"] := by
  refine ⟨(init_projection_narrowing "type" true ["type", "foo"] [] typeClashCls).1
      (by decide) (by decide),
    (init_projection_narrowing "type" true [] ["type"] typeClashCls).2.1
      (by decide) (some ["type"]), ?_⟩
  have h := (init_projection_narrowing "type" true ["bar", "foo"] [] typeClashCls).2.2.1
    (by decide)
  exact h.trans (by decide)

/-- C5: when the resolved tag is registered, the handler's dump succeeds
with a non-`None` record and `type_field_dump` holds, the output record is
the handler's record with the tag written into the tag field afterwards —
so reading the tag field of the output always yields the resolved tag,
even when the handler itself wrote a field of that name. -/
theorem dump_tag_injection_wins (s : OneOfSchema) (o : Obj) (h : Handler) (r : PyDict)
    (htag : s.get_obj_type o ≠ "")
    (hlook : lookupStr s.type_schemas (s.get_obj_type o) = some h)
    (hdump : h.dump o = .ok (some r))
    (hinj : s.type_field_dump = true) :
    s.dump (.one o) = .ok (.dict (r.set (.s s.type_field) (.str (s.get_obj_type o)))) ∧
    (r.set (.s s.type_field) (.str (s.get_obj_type o))).get? (.s s.type_field)
      = some (.str (s.get_obj_type o)) := by
  constructor
  · simp [OneOfSchema.dump, OneOfSchema._dump, htag, hlook, hdump, hinj]
  · exact PyDict.get?_set_self r _ _

/-- Witness for C5: `clashHandler` writes `"type": "WRONG"` into its own
record, yet the dumped record carries `"type": "Clash"` — the dispatch-level
tag, injected after delegation, wins. -/
theorem dump_tag_injection_wins_witness :
    clashSchema.dump (.one clashObj) = .ok (.dict
      (.cons (.s "type") (.str "Clash") (.cons (.s "x") (.int 1) .nil))) ∧
    (PyDict.cons (.s "type") (.str "Clash") (.cons (.s "x") (.int 1) .nil)).get?
      (.s "type") = some (.str "Clash") := by
  have h := dump_tag_injection_wins clashSchema clashObj clashHandler
    (.cons (.s "type") (.str "WRONG") (.cons (.s "x") (.int 1) .nil))
    (by decide) rfl rfl rfl
  exact ⟨h.1, h.2⟩

/-- C7 counterexample: a non-mapping tuple input does NOT raise the claimed
structural `ValidationError` — the program crashes with the uncaught
`TypeError` that `"Invalid data type: %s" % (1, 2)` raises; and for the
singleton tuple `(1,)` the message carries the unpacked element `1`, not
the tuple. -/
theorem load_single_tuple_input_crashes :
    uberSchema.load (.one (.tuple (.cons (.int 1) (.cons (.int 2) .nil)))) .pnone .pnone
      = .error .typeError ∧
    uberSchema.load (.one (.tuple (.cons (.int 1) .nil))) .pnone .pnone
      = .error (.validation ⟨schemaErrMsg "Invalid data type: 1",
          .list (.cons .pnone .nil)⟩) :=
  ⟨rfl, rfl⟩

/-- C7 (amended): the four load-side prechecks, in source order, each
settled before any handler is consulted (the conclusions hold for every
registry and handler assignment, so no handler is invoked): non-dict input
raises the structural error, except that a non-dict tuple of length other
than one crashes with the uncaught formatting `TypeError` (a length-1
tuple is unpacked into the message); an absent or falsy tag raises the
required-field error on the tag field; a truthy but unhashable tag raises
the invalid-value error on the tag field (the raw `TypeError` of the
lookup itself is not propagated) unless it is an unhashable tuple of
length other than one, whose message formatting crashes; a truthy hashable
tag with no registered handler likewise raises the unsupported-value error
or, for a tuple of length other than one, crashes.  The case conditions
are mutually exclusive in this listed order (e.g. a falsy unhashable tag
is reported as missing, not invalid). -/
theorem load_single_precheck_order (s : OneOfSchema) (d : PyVal) (p u : PyVal) :
    ((∀ entries, d ≠ .dict entries) →
      (∀ m, pyFormatArg d = some m →
        s.load (.one d) p u =
          .error (.validation ⟨schemaErrMsg ("Invalid data type: " ++ m),
            .list (.cons .pnone .nil)⟩)) ∧
      (pyFormatArg d = none → s.load (.one d) p u = .error .typeError)) ∧
    (∀ entries, d = .dict entries →
      (((entries.get? (.s s.type_field)).getD .pnone).truthy = false →
        s.load (.one d) p u =
          .error (.validation
            ⟨fieldErrMsgs s.type_field "Missing data for required field.",
             .list (.cons .pnone .nil)⟩)) ∧
      (∀ dt, entries.get? (.s s.type_field) = some dt → dt.truthy = true →
        dt.hashable = false →
        (∀ m, pyFormatArg dt = some m →
          s.load (.one d) p u =
            .error (.validation
              ⟨fieldErrMsgs s.type_field ("Invalid value: " ++ m),
               .list (.cons .pnone .nil)⟩)) ∧
        (pyFormatArg dt = none → s.load (.one d) p u = .error .typeError)) ∧
      (∀ dt, entries.get? (.s s.type_field) = some dt → dt.truthy = true →
        dt.hashable = true → lookupTag s.type_schemas dt = none →
        (∀ m, pyFormatArg dt = some m →
          s.load (.one d) p u =
            .error (.validation
              ⟨fieldErrMsgs s.type_field ("Unsupported value: " ++ m),
               .list (.cons .pnone .nil)⟩)) ∧
        (pyFormatArg dt = none → s.load (.one d) p u = .error .typeError))) := by
  constructor
  · intro hnd
    constructor
    · intro m hm
      have hld : ∀ q, s._load d q u =
          .error (.validation ⟨schemaErrMsg ("Invalid data type: " ++ m), .pnone⟩) := by
        intro q
        cases d with
        | dict entries => exact absurd rfl (hnd entries)
        | pnone => simp [OneOfSchema._load, hm]
        | str a => simp_all [OneOfSchema._load, pyFormatArg]
        | int n => simp [OneOfSchema._load, hm]
        | bool b => simp [OneOfSchema._load, hm]
        | list xs => simp [OneOfSchema._load, hm]
        | tuple xs => simp [OneOfSchema._load, hm]
      simp [OneOfSchema.load, hld, schemaErrMsg, PyVal.truthy]
    · intro hm
      have hld : ∀ q, s._load d q u = .error .typeError := by
        intro q
        cases d with
        | dict entries => exact absurd rfl (hnd entries)
        | pnone => simp [OneOfSchema._load, hm]
        | str a => simp_all [OneOfSchema._load, pyFormatArg]
        | int n => simp [OneOfSchema._load, hm]
        | bool b => simp [OneOfSchema._load, hm]
        | list xs => simp [OneOfSchema._load, hm]
        | tuple xs => simp [OneOfSchema._load, hm]
      simp [OneOfSchema.load, hld]
  · rintro entries rfl
    refine ⟨?_, ?_, ?_⟩
    · intro hfal
      cases hget : entries.get? (.s s.type_field) with
      | none =>
        have hld : ∀ q, s._load (.dict entries) q u =
            .error (.validation
              ⟨fieldErrMsgs s.type_field "Missing data for required field.",
               .pnone⟩) := by
          intro q; simp [OneOfSchema._load, hget]
        simp [OneOfSchema.load, hld, fieldErrMsgs, PyVal.truthy]
      | some dt =>
        rw [hget] at hfal
        simp only [Option.getD_some] at hfal
        have hld : ∀ q, s._load (.dict entries) q u =
            .error (.validation
              ⟨fieldErrMsgs s.type_field "Missing data for required field.",
               .pnone⟩) := by
          intro q; simp [OneOfSchema._load, hget, hfal]
        simp [OneOfSchema.load, hld, fieldErrMsgs, PyVal.truthy]
    · intro dt hget ht hh
      constructor
      · intro m hm
        have hld : ∀ q, s._load (.dict entries) q u =
            .error (.validation
              ⟨fieldErrMsgs s.type_field ("Invalid value: " ++ m), .pnone⟩) := by
          intro q; simp [OneOfSchema._load, hget, ht, hh, hm]
        simp [OneOfSchema.load, hld, fieldErrMsgs, PyVal.truthy]
      · intro hm
        have hld : ∀ q, s._load (.dict entries) q u = .error .typeError := by
          intro q; simp [OneOfSchema._load, hget, ht, hh, hm]
        simp [OneOfSchema.load, hld]
    · intro dt hget ht hh hl
      constructor
      · intro m hm
        have hld : ∀ q, s._load (.dict entries) q u =
            .error (.validation
              ⟨fieldErrMsgs s.type_field ("Unsupported value: " ++ m), .pnone⟩) := by
          intro q; simp [OneOfSchema._load, hget, ht, hh, hl, hm]
        simp [OneOfSchema.load, hld, fieldErrMsgs, PyVal.truthy]
      · intro hm
        have hld : ∀ q, s._load (.dict entries) q u = .error .typeError := by
          intro q; simp [OneOfSchema._load, hget, ht, hh, hl, hm]
        simp [OneOfSchema.load, hld]

/-- Witness for the amended C7, one instance per precheck: a non-dict
input, a record missing the tag, a record with an unhashable (list) tag, a
record with an unregistered string tag, and a record with an unregistered
hashable tuple tag that crashes the formatting. -/
theorem load_single_precheck_order_witness :
    uberSchema.load (.one (.int 5)) .pnone .pnone
      = .error (.validation ⟨schemaErrMsg "Invalid data type: 5",
          .list (.cons .pnone .nil)⟩) ∧
    uberSchema.load (.one (.dict (.cons (.s "foo") (.str "x") .nil))) .pnone .pnone
      = .error (.validation ⟨fieldErrMsgs "type" "Missing data for required field.",
          .list (.cons .pnone .nil)⟩) ∧
    uberSchema.load (.one (.dict (.cons (.s "type") (.list (.cons (.int 1) .nil)) .nil)))
      .pnone .pnone
      = .error (.validation ⟨fieldErrMsgs "type" "Invalid value: [1]",
          .list (.cons .pnone .nil)⟩) ∧
    uberSchema.load (.one (.dict (.cons (.s "type") (.str "Ghost") .nil))) .pnone .pnone
      = .error (.validation ⟨fieldErrMsgs "type" "Unsupported value: Ghost",
          .list (.cons .pnone .nil)⟩) ∧
    uberSchema.load (.one (.dict (.cons (.s "type")
      (.tuple (.cons (.int 1) (.cons (.int 2) .nil))) .nil))) .pnone .pnone
      = .error .typeError := by
  refine ⟨?_, ?_, ?_, ?_, ?_⟩
  · exact ((load_single_precheck_order uberSchema (.int 5) .pnone .pnone).1
      (fun entries h => by cases h)).1 "5" rfl
  · exact ((load_single_precheck_order uberSchema
      (.dict (.cons (.s "foo") (.str "x") .nil)) .pnone .pnone).2
      (.cons (.s "foo") (.str "x") .nil) rfl).1 (by decide)
  · exact (((load_single_precheck_order uberSchema
      (.dict (.cons (.s "type") (.list (.cons (.int 1) .nil)) .nil)) .pnone .pnone).2
      (.cons (.s "type") (.list (.cons (.int 1) .nil)) .nil) rfl).2.1
      (.list (.cons (.int 1) .nil)) rfl (by decide) (by decide)).1 "[1]" rfl
  · exact (((load_single_precheck_order uberSchema
      (.dict (.cons (.s "type") (.str "Ghost") .nil)) .pnone .pnone).2
      (.cons (.s "type") (.str "Ghost") .nil) rfl).2.2
      (.str "Ghost") rfl (by decide) (by decide) rfl).1 "Ghost" rfl
  · exact (((load_single_precheck_order uberSchema
      (.dict (.cons (.s "type") (.tuple (.cons (.int 1) (.cons (.int 2) .nil))) .nil))
      .pnone .pnone).2
      (.cons (.s "type") (.tuple (.cons (.int 1) (.cons (.int 2) .nil))) .nil) rfl).2.2
      (.tuple (.cons (.int 1) (.cons (.int 2) .nil))) rfl (by decide) (by decide)
      rfl).2 rfl

/-- C8: with dict objects on an explicit heap, `_load` leaves the caller's
input cell untouched — `data = dict(data)` allocates a fresh cell and the
tag-stripping `pop` writes only there — whether the call succeeds or
fails; and the instrumented run returns exactly the pure `_load` result. -/
theorem load_never_mutates_caller_record (s : OneOfSchema) (heap : List PyVal)
    (r : Nat) (p u : PyVal) (hr : r < heap.length) :
    ((s.loadRef heap r p u).1)[r]? = heap[r]? ∧
    (∀ d, heap[r]? = some d → (s.loadRef heap r p u).2 = s._load d p u) := by
  have hr' : heap[r]? = some heap[r] := List.getElem?_eq_getElem hr
  have hne : heap.length ≠ r := by omega
  cases hd : heap[r]
  case dict entries =>
    have hrx : heap[r]? = some (PyVal.dict entries) := by rw [hr', hd]
    have hload : s.loadRef heap r p u =
        ((heap ++ [PyVal.dict entries]).set heap.length
          (if entries.has (.s s.type_field) && s.type_field_remove then
            PyVal.dict (entries.erase (.s s.type_field))
          else PyVal.dict entries),
         s._load (.dict entries) p u) := by
      unfold OneOfSchema.loadRef
      rw [hrx]
    constructor
    · rw [hload]
      rw [List.getElem?_set_ne hne]
      simp [List.getElem?_append, hr]
    · intro d hdq
      rw [hrx] at hdq
      injection hdq with hdq
      subst hdq
      rw [hload]
  all_goals
    have hrx := hr'.trans (congrArg some hd)
    constructor
    · unfold OneOfSchema.loadRef
      rw [hrx]
      exact hrx
    · intro d hdq
      rw [hrx] at hdq
      injection hdq with hdq
      subst hdq
      unfold OneOfSchema.loadRef
      rw [hrx]

/-- Witness for C8: loading the docstring record leaves the caller's dict
cell bit-for-bit intact (the popped tag survives in the caller's object). -/
theorem load_never_mutates_caller_record_witness :
    ((uberSchema.loadRef
      [PyVal.dict (.cons (.s "type") (.str "Foo") (.cons (.s "foo") (.str "hello") .nil))]
      0 .pnone .pnone).1)[0]?
      = some (PyVal.dict
          (.cons (.s "type") (.str "Foo") (.cons (.s "foo") (.str "hello") .nil))) := by
  have h := load_never_mutates_caller_record uberSchema
    [PyVal.dict (.cons (.s "type") (.str "Foo") (.cons (.s "foo") (.str "hello") .nil))]
    0 .pnone .pnone (by decide)
  exact h.1.trans rfl

/-- C9 counterexample: `validate` can raise — it catches only
`ValidationError`, and validating a record whose tag is the hashable tuple
`(1, 2)` propagates the uncaught `TypeError` that
`"Unsupported value: %s" % (1, 2)` raises inside the underlying load. -/
theorem validate_tuple_tag_propagates_type_error :
    uberSchema.validate (.one (.dict (.cons (.s "type")
      (.tuple (.cons (.int 1) (.cons (.int 2) .nil))) .nil))) .pnone
      = .error .typeError :=
  rfl

/-- C9 (amended): `validate` catches only `ValidationError` from the
underlying `load` (called with the given partial and no unknown): it
returns that error's structured messages when the load raises a
`ValidationError`, the empty mapping when the load succeeds, and it
propagates — rather than never raising — any other exception, namely the
formatting `TypeError` of `_load`. -/
theorem validate_returns_load_messages (s : OneOfSchema) (input : LoadInput) (p : PyVal) :
    ((s.load input p .pnone).isOk = true → s.validate input p = .ok (.dict .nil)) ∧
    (∀ e, s.load input p .pnone = .error (.validation e) →
      s.validate input p = .ok e.messages) ∧
    (s.load input p .pnone = .error .typeError →
      s.validate input p = .error .typeError) := by
  refine ⟨?_, ?_, ?_⟩
  · intro h
    unfold OneOfSchema.validate
    cases hl : s.load input p .pnone with
    | ok v => rfl
    | error e => rw [hl] at h; cases h
  · intro e he
    unfold OneOfSchema.validate
    rw [he]
  · intro he
    unfold OneOfSchema.validate
    rw [he]

/-- Witness for the amended C9: validating a record with an unregistered
string tag returns the load error's messages, validating a well-tagged
record returns the empty dict, and a tuple tag propagates the crash. -/
theorem validate_returns_load_messages_witness :
    uberSchema.validate (.one (.dict (.cons (.s "type") (.str "Ghost") .nil))) .pnone
      = .ok (fieldErrMsgs "type" "Unsupported value: Ghost") ∧
    uberSchema.validate
      (.one (.dict (.cons (.s "type") (.str "Foo") (.cons (.s "foo") (.str "hi") .nil))))
      .pnone = .ok (.dict .nil) ∧
    uberSchema.validate (.one (.dict (.cons (.s "type")
      (.tuple (.cons (.int 1) (.cons (.int 2) .nil))) .nil))) .pnone
      = .error .typeError := by
  refine ⟨?_, ?_, ?_⟩
  · exact (validate_returns_load_messages uberSchema
      (.one (.dict (.cons (.s "type") (.str "Ghost") .nil))) .pnone).2.1
      ⟨fieldErrMsgs "type" "Unsupported value: Ghost", .list (.cons .pnone .nil)⟩ rfl
  · exact (validate_returns_load_messages uberSchema
      (.one (.dict (.cons (.s "type") (.str "Foo") (.cons (.s "foo") (.str "hi") .nil))))
      .pnone).1 rfl
  · exact (validate_returns_load_messages uberSchema
      (.one (.dict (.cons (.s "type")
        (.tuple (.cons (.int 1) (.cons (.int 2) .nil))) .nil))) .pnone).2.2 rfl
